import Mathlib

/-!
Shallow embedding of the orbital-visualisation notebook
(`orbital_visualisation.ipynb`).

The notebook's own code is four wrapper functions around the pyscf
quantum-chemistry library:

* `gen_mol(coords, basis='def2-svp', output='pyscf.log', charge=0)` —
  parses a multi-line coordinate block, sets `basis`, `output`,
  `verbose = 5`, `charge` on a `gto.Mole` and builds it;
* `run_dft(mol, xc_func='b3lyp')` — creates a KS-DFT object, sets
  `xc = xc_func` and `max_cycle = 300`, and calls the external solver
  `mf.kernel()` exactly once;
* `calc_e(coords, basis='def2-svp', xc_func='b3lyp')` — composes the two,
  forwarding only `coords` and `basis` to `gen_mol` (so the builder's
  default `output` and `charge` apply);
* `gen_orb(mol_name, orb_num, mf)` — builds the file name
  `mol_name + '_mol_' + str(orb_num) + '.cub'` and passes
  `mf.mo_coeff[:, orb_num - 1]` (numpy column slice with Python index
  semantics, so negative indices wrap) to `cubegen.orbital`.

External library calls (the SCF solver, the geometry optimizer, the cube
writer, the log file effect of `mol.build()`) are modelled as explicit
parameters or effect values; everything the repository's code itself does
is translated directly.
-/

/-- One parsed atom line of the coordinate block: element symbol plus
three Cartesian coordinates (modelled as exact rationals). -/
structure AtomRecord where
  symbol : String
  x : Rat
  y : Rat
  z : Rat
  deriving DecidableEq

/-- Numeric value of one decimal digit character. -/
def digitVal (c : Char) : Nat := c.toNat - 48

/-- Value of a run of decimal digits, most significant first. -/
def digitsVal (cs : List Char) : Nat :=
  cs.foldl (fun a c => a * 10 + digitVal c) 0

/-- Parse an unsigned decimal literal (digits with an optional fractional
part), the numeric forms that appear in the notebook's coordinate blocks
and are accepted by Python float conversion. -/
def parseUnsigned (cs : List Char) : Option Rat :=
  let intDigits := cs.takeWhile Char.isDigit
  let rest := cs.dropWhile Char.isDigit
  match rest with
  | [] =>
      if intDigits.isEmpty then none
      else some ((digitsVal intDigits : Nat) : Rat)
  | '.' :: fracRest =>
      let fracDigits := fracRest.takeWhile Char.isDigit
      if !(fracRest.dropWhile Char.isDigit).isEmpty then none
      else if intDigits.isEmpty && fracDigits.isEmpty then none
      else some (((digitsVal intDigits : Nat) : Rat) +
        ((digitsVal fracDigits : Nat) : Rat) / (10 : Rat) ^ fracDigits.length)
  | _ => none

/-- Parse a decimal literal with an optional leading sign. -/
def parseUnsignedOrSigned (cs : List Char) : Option Rat :=
  match cs with
  | '-' :: rest => (parseUnsigned rest).map (fun v => -v)
  | '+' :: rest => parseUnsigned rest
  | _ => parseUnsigned cs

/-- Split a character list at every separator recognised by `p`; the
separators are dropped and empty fields are kept (they are filtered by
the callers). -/
def splitWhen (p : Char → Bool) : List Char → List (List Char)
  | [] => [[]]
  | c :: rest =>
      match splitWhen p rest, p c with
      | r, true => [] :: r
      | [], false => [[c]]
      | t :: ts, false => (c :: t) :: ts

/-- Whitespace-separated tokens of one line, blanks dropped. -/
def lineTokens (line : List Char) : List (List Char) :=
  (splitWhen Char.isWhitespace line).filter (fun t => !t.isEmpty)

/-- Parse one atom line `<Element> <x> <y> <z>`; wrong token count or a
non-numeric coordinate is a parse error. -/
def parseAtomLine (line : List Char) : Except String AtomRecord :=
  match lineTokens line with
  | [sym, xs, ys, zs] =>
      match parseUnsignedOrSigned xs, parseUnsignedOrSigned ys,
          parseUnsignedOrSigned zs with
      | some x, some y, some z => Except.ok ⟨String.mk sym, x, y, z⟩
      | _, _, _ =>
          Except.error ("ParseError: non-numeric coordinate: " ++ String.mk line)
  | _ => Except.error ("ParseError: wrong token count: " ++ String.mk line)

/-- Parse a multi-line coordinate block in line order; lines with no
tokens (the blank first and last lines of the notebook's string literals)
are skipped. -/
def parseAtoms (coords : String) : Except String (List AtomRecord) :=
  (((splitWhen (fun c => c == '\n')) coords.toList).filter
    (fun l => !(lineTokens l).isEmpty)).mapM parseAtomLine

/-- The built molecule: the parsed atom list plus the configuration
fields `gen_mol` sets on the `gto.Mole` object. -/
structure MoleculeSpec where
  atom : List AtomRecord
  basis : String
  output : String
  verbose : Nat
  charge : Int
  deriving DecidableEq

/-- Default value of `gen_mol`'s `basis` keyword argument. -/
def gen_mol_basis_default : String := "def2-svp"

/-- Default value of `gen_mol`'s `output` keyword argument. -/
def gen_mol_output_default : String := "pyscf.log"

/-- Default value of `gen_mol`'s `charge` keyword argument. -/
def gen_mol_charge_default : Int := 0

/-- Embedding of `gen_mol`: parse the coordinate block and record the
configuration fields the source sets (`verbose` is the literal 5).
A parse failure of `mol.build()` propagates as the error. -/
def gen_mol (coords basis output : String) (charge : Int) :
    Except String MoleculeSpec :=
  (parseAtoms coords).map (fun atoms => ⟨atoms, basis, output, 5, charge⟩)

/-- The configuration `run_dft` hands to the external SCF solver:
the molecule, the exchange-correlation functional and the iteration cap. -/
structure KSConfig where
  mol : MoleculeSpec
  xc : String
  max_cycle : Nat
  deriving DecidableEq

/-- The solver's converged result (`mf` after `kernel()`): the molecule it
was built from, the total energy and the orbital-coefficient matrix,
a rectangular numpy array of shape (atomic orbitals × molecular
orbitals) modelled as a list of rows. -/
structure SolvedState where
  mol : MoleculeSpec
  e_tot : Rat
  mo_coeff : List (List Rat)
  deriving DecidableEq

/-- The external SCF solver (`mf.kernel()`) as seen from the wrapper: it
either converges to a solved state or fails. -/
abbrev Kernel : Type := KSConfig → Except String SolvedState

/-- Embedding of `run_dft`: build the KS configuration (functional from
the argument, `max_cycle` the literal 300) and invoke the external solver.
The first component records the sequence of solver invocations the
wrapper performs — the source calls `mf.kernel()` exactly once and never
inspects or retries the result. -/
def run_dft (kernel : Kernel) (mol : MoleculeSpec) (xc_func : String) :
    List KSConfig × Except String SolvedState :=
  let cfg : KSConfig := ⟨mol, xc_func, 300⟩
  ([cfg], kernel cfg)

/-- Embedding of `calc_e`: `gen_mol(coords, basis=basis)` — only `coords`
and `basis` are forwarded, so `gen_mol`'s default `output` and `charge`
apply — then `run_dft(mol, xc_func)`. -/
def calc_e (kernel : Kernel) (coords basis xc_func : String) :
    Except String (List KSConfig × Except String SolvedState) :=
  (gen_mol coords basis gen_mol_output_default gen_mol_charge_default).map
    (fun mol => run_dft kernel mol xc_func)

/-- Number of columns (molecular orbitals) of the coefficient matrix; the
numpy array is rectangular, so the first row's length is the column count. -/
def ncols (m : List (List Rat)) : Nat := (m.head?.getD []).length

/-- Python/numpy index normalisation along an axis of size `n`: indices in
`[0, n)` are used as-is, indices in `[-n, 0)` wrap by adding `n`, anything
else is an IndexError. -/
def pyIndex (i : Int) (n : Nat) : Option Nat :=
  if 0 ≤ i then (if i < (n : Int) then some i.toNat else none)
  else (if -(n : Int) ≤ i then some (i + (n : Int)).toNat else none)

/-- The numpy column slice `m[:, i]` with Python index semantics. -/
def pyColumn (m : List (List Rat)) (i : Int) : Option (List Rat) :=
  (pyIndex i (ncols m)).map (fun j => m.map (fun row => row.getD j 0))

/-- The column at plain 0-based position `j` of a matrix (the
specification's description of which orbital is exported). -/
def matrixColumn (m : List (List Rat)) (j : Nat) : List Rat :=
  m.map (fun row => row.getD j 0)

/-- What `gen_orb` hands to the external cube writer `cubegen.orbital`:
the output file name, the molecule and the selected coefficient column. -/
structure CubeRequest where
  file : String
  mol : MoleculeSpec
  coeff : List Rat
  deriving DecidableEq

/-- Embedding of `gen_orb`: the file name is the fixed template
`mol_name + '_mol_' + str(orb_num) + '.cub'` and the coefficient vector is
`mf.mo_coeff[:, orb_num - 1]`; `none` is the external library's
IndexError when the normalised column index is out of range — the
wrapper itself performs no validation. -/
def gen_orb (mol_name : String) (orb_num : Int) (mf : SolvedState) :
    Option CubeRequest :=
  let file := mol_name ++ "_mol_" ++ toString orb_num ++ ".cub"
  (pyColumn mf.mo_coeff (orb_num - 1)).map (fun col => ⟨file, mf.mol, col⟩)

/-- Modelled from the spec: the effect of `mol.build()` on the log file
(the pyscf library's side of the `output` field, not under src/) —
"may redirect solver diagnostic output to `log_path`, overwriting any
existing file at that path without warning". The file system is a map
from paths to contents; the build replaces the content at the molecule's
`output` path with the new diagnostics and leaves every other path alone. -/
def buildLog (fs : String → String) (m : MoleculeSpec) (log : String) :
    String → String :=
  fun p => if p = m.output then log else fs p

/-- Modelled from the spec: the external geometry optimizer's iteration
(geomeTRIC via `pyscf.geomopt.geometric_solver`, not under src/) —
"repeatedly perturbs atomic positions and re-evaluates energy/gradient
… and stops when … thresholds [are met], or when `max_steps` is
exhausted". The per-step perturbation and the convergence test are the
external engine, taken as parameters. -/
def optLoop (step : MoleculeSpec → MoleculeSpec) (done : MoleculeSpec → Bool) :
    Nat → MoleculeSpec → MoleculeSpec
  | 0, m => m
  | n + 1, m => if done m then m else optLoop step done n (step m)

/-- Modelled from the spec: `optimize(mf, maxsteps)` — "optimization
produces a *new* MoleculeSpec rather than mutating the old one". The call
returns the optimized molecule together with the caller's solved state as
it stands after the call (the state is passed through, never rebuilt). -/
def optimize (step : MoleculeSpec → MoleculeSpec) (done : MoleculeSpec → Bool)
    (state : SolvedState) (maxsteps : Nat) : MoleculeSpec × SolvedState :=
  (optLoop step done maxsteps state.mol, state)

/-! ## Concrete data used by witness theorems -/

/-- A small well-formed coordinate block (integer coordinates keep every
evaluation kernel-reducible). -/
def sampleCoords : String := "H 1 2 3\nO 2 -1 2"

/-- The molecule `gen_mol` builds from `sampleCoords` with the source's
default basis, log path and charge. -/
def sampleMol : MoleculeSpec :=
  ⟨[⟨"H", 1, 2, 3⟩, ⟨"O", 2, -1, 2⟩], "def2-svp", "pyscf.log", 5, 0⟩

/-- A solved state over `sampleMol` with a 2 × 2 coefficient matrix. -/
def sampleState : SolvedState := ⟨sampleMol, 0, [[1, 2], [3, 4]]⟩

/-- A solved state whose coefficient matrix has 17 columns, enough to
export orbital 17. -/
def w17State : SolvedState := ⟨sampleMol, 0, [List.replicate 17 (0 : Rat)]⟩

/-- The cube request produced when exporting orbital 17 of `w17State`. -/
def w17Req : CubeRequest := ⟨"benzene_mol_17.cub", sampleMol, [0]⟩

/-- A solver that always reports convergence failure. -/
def failKernel : Kernel := fun _ => Except.error "SCF not converged"

/-! ## Helper lemmas shared by the claim theorems -/

/-- Unfolding of `gen_orb` into the normalised column index. -/
theorem gen_orb_at (label : String) (k : Int) (mf : SolvedState) :
    gen_orb label k mf =
      (pyIndex (k - 1) (ncols mf.mo_coeff)).map
        (fun j => ⟨label ++ "_mol_" ++ toString k ++ ".cub", mf.mol,
          matrixColumn mf.mo_coeff j⟩) := by
  unfold gen_orb pyColumn matrixColumn
  cases pyIndex (k - 1) (ncols mf.mo_coeff) <;> rfl

/-- Python index −1 wraps to the last position of a non-empty axis. -/
theorem pyIndex_neg_one (n : Nat) (h : 0 < n) : pyIndex (-1) n = some (n - 1) := by
  unfold pyIndex
  rw [if_neg (by omega), if_pos (by omega)]
  congr 1
  omega

/-- A Python index in `[0, n)` is used as-is. -/
theorem pyIndex_in_range (i : Int) (n : Nat) (h0 : 0 ≤ i) (h1 : i < (n : Int)) :
    pyIndex i n = some i.toNat := by
  unfold pyIndex
  rw [if_pos h0, if_pos h1]

/-- A Python index at or beyond the axis size is an IndexError. -/
theorem pyIndex_too_big (i : Int) (n : Nat) (h0 : 0 ≤ i) (h1 : (n : Int) ≤ i) :
    pyIndex i n = none := by
  unfold pyIndex
  rw [if_pos h0, if_neg (by omega)]

/-- The configuration fields of a successfully built molecule are exactly
the arguments `gen_mol` received (with the literal verbosity 5). -/
theorem gen_mol_fields (coords basis output : String) (charge : Int)
    (m : MoleculeSpec) (h : gen_mol coords basis output charge = Except.ok m) :
    m.basis = basis ∧ m.output = output ∧ m.verbose = 5 ∧ m.charge = charge := by
  unfold gen_mol at h
  cases hp : parseAtoms coords with
  | error e => rw [hp] at h; simp [Except.map] at h
  | ok atoms =>
      rw [hp] at h
      simp only [Except.map, Except.ok.injEq] at h
      subst h
      exact ⟨rfl, rfl, rfl, rfl⟩

/-! ## Claim theorems -/

/-- C1 counterexample: exporting orbital index 0 of a solved state with
two molecular orbitals does not fail at all — `gen_orb` builds the file
name `benzene_mol_0.cub` and hands the *last* coefficient column (Python
index −1) to the external cube writer, so no descriptive range error is
raised. -/
theorem gen_orb_zero_cex :
    (gen_orb "benzene" 0 sampleState).isSome = true ∧
      gen_orb "benzene" 0 sampleState =
        some ⟨"benzene_mol_0.cub", sampleMol, [2, 4]⟩ :=
  ⟨rfl, rfl⟩

/-- C1 (amended): `gen_orb` performs no range validation of its own. For
any solved state with at least one molecular orbital, exporting orbital
index 0 succeeds (the Python index −1 wraps to the last column), and an
index greater than the molecular-orbital count fails only through the
external library's out-of-range behaviour (numpy's IndexError), not
through any repository-level descriptive range error. -/
theorem gen_orb_no_range_guard (label : String) (mf : SolvedState)
    (h : 0 < ncols mf.mo_coeff) :
    (gen_orb label 0 mf).isSome = true ∧
      ∀ k : Int, (ncols mf.mo_coeff : Int) < k → gen_orb label k mf = none := by
  constructor
  · rw [gen_orb_at, show (0 : Int) - 1 = -1 by norm_num, pyIndex_neg_one _ h]
    rfl
  · intro k hk
    rw [gen_orb_at, pyIndex_too_big (k - 1) _ (by omega) (by omega)]
    rfl

/-- C1 witness for the amended theorem, at a state with two orbitals:
index 0 succeeds and index 3 is an external IndexError. -/
theorem gen_orb_no_range_guard_w :
    0 < ncols sampleState.mo_coeff ∧
      (gen_orb "benzene" 0 sampleState).isSome = true ∧
      gen_orb "benzene" 3 sampleState = none :=
  ⟨by decide,
    (gen_orb_no_range_guard "benzene" sampleState (by decide)).1,
    (gen_orb_no_range_guard "benzene" sampleState (by decide)).2 3 (by decide)⟩

/-- C2: if the external SCF solver fails to converge, `run_dft` returns
that very error unmodified, and it invokes the solver exactly once — no
retry with different initial guesses or relaxed thresholds. -/
theorem run_dft_propagates_error (kernel : Kernel) (mol : MoleculeSpec)
    (xc : String) (e : String)
    (h : kernel ⟨mol, xc, 300⟩ = Except.error e) :
    (run_dft kernel mol xc).2 = Except.error e ∧
      (run_dft kernel mol xc).1.length = 1 :=
  ⟨h, rfl⟩

/-- C2 witness: a solver that reports non-convergence; `run_dft` returns
the same error after exactly one solver call. -/
theorem run_dft_propagates_error_w :
    (run_dft failKernel sampleMol "b3lyp").2 =
        Except.error "SCF not converged" ∧
      (run_dft failKernel sampleMol "b3lyp").1.length = 1 :=
  run_dft_propagates_error failKernel sampleMol "b3lyp" "SCF not converged" rfl

/-- C3: whenever `gen_orb` produces a cube request, its file name is
exactly the fixed template `<molecule_label>_mol_<orbital_index>.cub`. -/
theorem gen_orb_file_template (label : String) (idx : Int) (mf : SolvedState)
    (req : CubeRequest) (h : gen_orb label idx mf = some req) :
    req.file = label ++ "_mol_" ++ toString idx ++ ".cub" := by
  rw [gen_orb_at] at h
  obtain ⟨j, hj, hreq⟩ := Option.map_eq_some'.mp h
  rw [← hreq]

/-- C3 witness: for molecule label benzene and orbital index 17 the
output file name is exactly `benzene_mol_17.cub`. -/
theorem gen_orb_file_template_w :
    gen_orb "benzene" 17 w17State = some w17Req ∧
      w17Req.file = "benzene_mol_17.cub" :=
  ⟨rfl, gen_orb_file_template "benzene" 17 w17State w17Req rfl⟩

/-- C4: for every orbital index in `[1, molecular-orbital count]`,
`gen_orb` passes to the grid generator exactly the column at 0-based
position `orbital_index − 1` of the state's coefficient matrix, under the
templated file name. -/
theorem gen_orb_selects_column (label : String) (idx : Int) (mf : SolvedState)
    (h1 : 1 ≤ idx) (h2 : idx ≤ (ncols mf.mo_coeff : Int)) :
    gen_orb label idx mf =
      some ⟨label ++ "_mol_" ++ toString idx ++ ".cub", mf.mol,
        matrixColumn mf.mo_coeff (idx - 1).toNat⟩ := by
  rw [gen_orb_at, pyIndex_in_range (idx - 1) _ (by omega) (by omega)]
  rfl

/-- C4 witness: exporting orbital 1 of a 2-orbital state passes column 0,
here `[1, 3]`. -/
theorem gen_orb_selects_column_w :
    (1 : Int) ≤ 1 ∧ (1 : Int) ≤ (ncols sampleState.mo_coeff : Int) ∧
      gen_orb "benzene" 1 sampleState =
        some ⟨"benzene_mol_1.cub", sampleMol, [1, 3]⟩ :=
  ⟨by decide, by decide,
    gen_orb_selects_column "benzene" 1 sampleState (by decide) (by decide)⟩

/-- C5: geometry optimization produces a new `MoleculeSpec` and never
mutates its input — after the `optimize` call returns, the caller's
solved state, and in particular its molecule's atom records, basis and
charge, are exactly what they were before the call. -/
theorem optimize_input_unchanged (step : MoleculeSpec → MoleculeSpec)
    (done : MoleculeSpec → Bool) (state : SolvedState) (maxsteps : Nat) :
    (optimize step done state maxsteps).2.mol.atom = state.mol.atom ∧
      (optimize step done state maxsteps).2.mol.basis = state.mol.basis ∧
      (optimize step done state maxsteps).2.mol.charge = state.mol.charge ∧
      (optimize step done state maxsteps).2 = state :=
  ⟨rfl, rfl, rfl, rfl⟩

/-- C6: the molecule builder is deterministic — two calls of `gen_mol`
with identical arguments build molecules that are element-wise equal in
atoms, basis and charge. -/
theorem gen_mol_deterministic (coords basis output : String) (charge : Int)
    (m1 m2 : MoleculeSpec)
    (h1 : gen_mol coords basis output charge = Except.ok m1)
    (h2 : gen_mol coords basis output charge = Except.ok m2) :
    m1.atom = m2.atom ∧ m1.basis = m2.basis ∧ m1.charge = m2.charge := by
  rw [h1] at h2
  injection h2 with h
  subst h
  exact ⟨rfl, rfl, rfl⟩

/-- C6 witness: building the sample coordinate block twice yields the
same molecule. -/
theorem gen_mol_deterministic_w :
    gen_mol sampleCoords "def2-svp" "pyscf.log" 0 = Except.ok sampleMol ∧
      (sampleMol.atom = sampleMol.atom ∧ sampleMol.basis = sampleMol.basis ∧
        sampleMol.charge = sampleMol.charge) :=
  ⟨rfl, gen_mol_deterministic sampleCoords "def2-svp" "pyscf.log" 0
    sampleMol sampleMol rfl rfl⟩

/-- C7: a molecule built with `gen_mol`'s default log destination directs
solver diagnostics to `pyscf.log`, and the build's log effect replaces
whatever content the file system held at that path (leaving every other
path untouched) — the overwrite happens on every build, without warning. -/
theorem gen_mol_default_log_overwrite (coords basis : String) (charge : Int)
    (m : MoleculeSpec)
    (h : gen_mol coords basis gen_mol_output_default charge = Except.ok m) :
    m.output = "pyscf.log" ∧
      ∀ fs : String → String, ∀ log : String,
        buildLog fs m log m.output = log ∧
        ∀ p : String, p ≠ m.output → buildLog fs m log p = fs p := by
  obtain ⟨-, hout, -, -⟩ := gen_mol_fields coords basis _ charge m h
  refine ⟨hout, fun fs log => ⟨?_, fun p hp => ?_⟩⟩
  · simp [buildLog]
  · simp [buildLog, hp]

/-- C7 witness: the sample molecule logs to `pyscf.log`, and a build
replaces the old content there. -/
theorem gen_mol_default_log_overwrite_w :
    sampleMol.output = "pyscf.log" ∧
      buildLog (fun _ => "old content") sampleMol "new diagnostics"
        sampleMol.output = "new diagnostics" :=
  ⟨(gen_mol_default_log_overwrite sampleCoords "def2-svp" 0 sampleMol rfl).1,
    ((gen_mol_default_log_overwrite sampleCoords "def2-svp" 0 sampleMol rfl).2
      (fun _ => "old content") "new diagnostics").1⟩

/-- C8: calling `gen_orb` with orbital index 0 does not raise — the
Python index −1 wraps to the highest-index orbital, so the last column of
the coefficient matrix is exported under the file name
`<molecule_label>_mol_0.cub`. -/
theorem gen_orb_zero_wraps (label : String) (mf : SolvedState)
    (h : 0 < ncols mf.mo_coeff) :
    gen_orb label 0 mf =
      some ⟨label ++ "_mol_0.cub", mf.mol,
        matrixColumn mf.mo_coeff (ncols mf.mo_coeff - 1)⟩ := by
  rw [gen_orb_at, show (0 : Int) - 1 = -1 by norm_num, pyIndex_neg_one _ h,
    Option.map_some', String.append_assoc, String.append_assoc]
  rfl

/-- C8 witness: at a 2-orbital state, index 0 exports column 1 (the last
one, `[2, 4]`) into `benzene_mol_0.cub`. -/
theorem gen_orb_zero_wraps_w :
    0 < ncols sampleState.mo_coeff ∧
      gen_orb "benzene" 0 sampleState =
        some ⟨"benzene_mol_0.cub", sampleMol, [2, 4]⟩ :=
  ⟨by decide, gen_orb_zero_wraps "benzene" sampleState (by decide)⟩

/-- C9: every solver invocation `run_dft` performs carries the iteration
cap 300 — the wrapper takes no iteration-cap argument, so the single
configuration it hands to the solver always has `max_cycle = 300`. -/
theorem run_dft_max_cycle_300 (kernel : Kernel) (mol : MoleculeSpec)
    (xc : String) :
    (run_dft kernel mol xc).1 = [⟨mol, xc, 300⟩] ∧
      (run_dft kernel mol xc).2 = kernel ⟨mol, xc, 300⟩ :=
  ⟨rfl, rfl⟩

/-- C10: every molecule built through `calc_e` has net charge 0 — the
wrapper forwards no charge to `gen_mol`, so the default charge 0 applies
to every solver configuration in the run, whatever the coordinate block,
basis and functional are. -/
theorem calc_e_charge_zero (kernel : Kernel) (coords basis xc : String)
    (trace : List KSConfig) (res : Except String SolvedState)
    (h : calc_e kernel coords basis xc = Except.ok (trace, res)) :
    ∀ cfg ∈ trace, cfg.mol.charge = 0 := by
  unfold calc_e at h
  cases hp : gen_mol coords basis gen_mol_output_default gen_mol_charge_default with
  | error e => rw [hp] at h; simp [Except.map] at h
  | ok mol =>
      obtain ⟨-, -, -, hc⟩ := gen_mol_fields _ _ _ _ _ hp
      rw [hp] at h
      simp only [Except.map, Except.ok.injEq] at h
      intro cfg hcfg
      have h1 : [(⟨mol, xc, 300⟩ : KSConfig)] = trace := congrArg Prod.fst h
      rw [← h1] at hcfg
      rw [List.mem_singleton.mp hcfg]
      exact hc

/-- C10 witness: a concrete `calc_e` run over the sample block (with a
non-converging solver, which does not matter for the built molecule)
whose single solver configuration carries charge 0. -/
theorem calc_e_charge_zero_w :
    (⟨sampleMol, "b3lyp", 300⟩ : KSConfig).mol.charge = 0 :=
  calc_e_charge_zero failKernel sampleCoords "def2-svp" "b3lyp"
    [⟨sampleMol, "b3lyp", 300⟩] (Except.error "SCF not converged") rfl
    ⟨sampleMol, "b3lyp", 300⟩ (List.mem_singleton.mpr rfl)
